import Mathlib

/- Shallow embedding of src/debug_debugger.py (class DebugDebugger).

   Modeling conventions:
   - Python values flowing through instrumented methods are modeled by `Value`
     (None, int, str); a raised Python exception is `Except.error msg` carrying
     the exception message string (the code only inspects `str(exception)`).
   - `time.time()` / `time.perf_counter()` readings are modeled by a `clock`
     field (a Nat) in the state plus an `Env` oracle supplying the measured
     elapsed time and memory delta of a call; executing an original method
     advances the clock by the measured elapsed time.
   - Printing via `emergency_fallback` / `_alert` is modeled as appending a
     structured `Event` to an event log (exact message formatting is
     immaterial to the properties considered here).
   - The forensics file written by `_document_debugger_failure` is modeled as
     a record appended to a `forensics` list.
   - Python float arithmetic on failure rates is modeled by exact rational
     comparisons, written multiplicatively over Nat
     (failures / max(total, 1) > 3/10  iff  10*failures > 3*max(total, 1)).
   - Python dicts (insertion ordered) are association lists: updating an
     existing key keeps its position, a new key is appended.
   - A registered tool instance is modeled with one monitored method slot:
     `orig` gives the behavior of the underlying original method as a function
     of how many times the original has run so far (so a method can fail on
     its first call and succeed on its second), and `layers` counts how many
     monitoring wrappers `_instrument_tool` has installed on the slot
     (re-registration wraps the already-wrapped method again).
   - `ghost_invocations` / `ghost_aborted` are observation-only
     instrumentation counting wrapper entries and reentrancy-guard trips per
     tool; they are not part of the Python state and no Python-translated
     code reads them. -/

namespace Debugger

/-- Python values passed to and returned from instrumented methods. -/
inductive Value where
  | none
  | int (i : Int)
  | str (s : String)
deriving DecidableEq

/-- Structured stand-ins for the messages printed through
`emergency_fallback` and `_alert`. -/
inductive Event where
  | inception (method_id : String) (depth : Nat)
  | slow (method_id : String) (elapsed : Nat)
  | memoryLeak (method_id : String) (delta : Int)
  | unhealthyAlert (tool_name : String)
  | cacheCleared (tool_name : String)
  | debuggerFailed (method_id : String)
  | forensicsSaved (tool_name method_name : String)
  | substitution (recommended chosen : String)
deriving DecidableEq

/-- One entry of `self.tool_performance[tool]` (a CallOutcome). -/
structure Perf where
  method : String
  elapsed : Nat
  memory_delta : Int
  timestamp : Nat
deriving DecidableEq

/-- One entry of `self.tool_failures` (the traceback text is omitted). -/
structure FailureRec where
  tool : String
  method : String
  exception : String
  timestamp : Nat
deriving DecidableEq

/-- One forensics file written by `_document_debugger_failure` (system-state
snapshot fields are omitted; they are opaque readings of the host machine). -/
structure ForensicsRec where
  tool_name : String
  method_name : String
  exception : String
  timestamp : Nat
deriving DecidableEq

/-- A registered tool instance: the behavior of its (single modeled) original
method, how many times the original has run, how many monitoring wrappers are
installed on the method slot, and whether it exposes `clear_cache`. -/
structure ToolInstance where
  orig : Nat → List Value → Except String Value
  orig_calls : Nat
  layers : Nat
  has_clear_cache : Bool

/-- One entry of `self.debug_tools_registry`. -/
structure ToolRec where
  inst : ToolInstance
  failures : Nat
  successes : Nat
  total_time : Nat
  status : String
  last_heartbeat : Nat

/-- The state of a `DebugDebugger` object. -/
structure DebugDebugger where
  paranoid_mode : Bool
  debug_tools_registry : List (String × ToolRec)
  tool_failures : List FailureRec
  tool_performance : List (String × List Perf)
  recursive_depth : Nat
  events : List Event
  forensics : List ForensicsRec
  clock : Nat
  ghost_invocations : List (String × Nat)
  ghost_aborted : List (String × Nat)

def MAX_RECURSION : Nat := 3

/-- Measured wall time and memory delta of one original-method execution
(readings of `time.perf_counter` and `psutil`, supplied by the machine). -/
structure Env where
  elapsed : Nat
  memory_delta : Int

/- Association lists with Python-dict semantics. -/

def dictGet {α : Type} : List (String × α) → String → α → α
  | [], _, dflt => dflt
  | (k', v') :: rest, k, dflt => if k' = k then v' else dictGet rest k dflt

def dictSet {α : Type} : List (String × α) → String → α → List (String × α)
  | [], k, v => [(k, v)]
  | (k', v') :: rest, k, v =>
      if k' = k then (k, v) :: rest else (k', v') :: dictSet rest k v

def dictMem {α : Type} : List (String × α) → String → Bool
  | [], _ => false
  | (k', _) :: rest, k => if k' = k then true else dictMem rest k

/- String helpers (`in`, `.lower()`, `.replace(..)` on Python strings),
implemented structurally so that they reduce in the kernel. -/

/-- Whether the needle is an initial segment of the haystack. -/
def charsStartWith : List Char → List Char → Bool
  | _, [] => true
  | [], _ :: _ => false
  | c :: cs, p :: ps => c == p && charsStartWith cs ps

/-- Whether the needle occurs contiguously in the haystack (Python `in`). -/
def charsContain : List Char → List Char → Bool
  | [], pat => pat.isEmpty
  | c :: rest, pat => charsStartWith (c :: rest) pat || charsContain rest pat

def strToLower (s : String) : String := ⟨s.toList.map Char.toLower⟩

/-- Python `pat in s.lower()`. -/
def lowerContains (s pat : String) : Bool :=
  charsContain (strToLower s).toList pat.toList

/-- Replace every occurrence of `pat` (non-overlapping, left to right); the
fuel (initialized to the string length) only makes the recursion structural. -/
def charsReplaceAux : Nat → List Char → List Char → List Char → List Char
  | 0, l, _, _ => l
  | _ + 1, [], _, _ => []
  | fuel + 1, c :: rest, pat, repl =>
      if !pat.isEmpty && charsStartWith (c :: rest) pat then
        repl ++ charsReplaceAux fuel ((c :: rest).drop pat.length) pat repl
      else
        c :: charsReplaceAux fuel rest pat repl

/-- Python `s.replace(pat, repl)`. -/
def strReplace (s pat repl : String) : String :=
  ⟨charsReplaceAux s.length s.toList pat.toList repl.toList⟩

/- State helpers and projections. -/

/-- Default used with `dictGet` where the source would raise `KeyError`; all
modeled flows only read keys that are present. -/
def defaultRec : ToolRec :=
  { inst := { orig := fun _ _ => Except.ok Value.none, orig_calls := 0,
              layers := 0, has_clear_cache := false },
    failures := 0, successes := 0, total_time := 0, status := "healthy",
    last_heartbeat := 0 }

def instAt (st : DebugDebugger) (t : String) : ToolInstance :=
  (dictGet st.debug_tools_registry t defaultRec).inst

def layersAt (st : DebugDebugger) (t : String) : Nat := (instAt st t).layers

def origCallsAt (st : DebugDebugger) (t : String) : Nat := (instAt st t).orig_calls

def succAt (st : DebugDebugger) (t : String) : Nat :=
  (dictGet st.debug_tools_registry t defaultRec).successes

def failAt (st : DebugDebugger) (t : String) : Nat :=
  (dictGet st.debug_tools_registry t defaultRec).failures

def statusAt (st : DebugDebugger) (t : String) : String :=
  (dictGet st.debug_tools_registry t defaultRec).status

def histAt (st : DebugDebugger) (t : String) : List Perf :=
  dictGet st.tool_performance t []

def invAt (st : DebugDebugger) (t : String) : Nat :=
  dictGet st.ghost_invocations t 0

def abortAt (st : DebugDebugger) (t : String) : Nat :=
  dictGet st.ghost_aborted t 0

def emit (st : DebugDebugger) (e : Event) : DebugDebugger :=
  { st with events := st.events ++ [e] }

def bumpGhostInv (st : DebugDebugger) (t : String) : DebugDebugger :=
  { st with ghost_invocations :=
      dictSet st.ghost_invocations t (dictGet st.ghost_invocations t 0 + 1) }

def bumpGhostAborted (st : DebugDebugger) (t : String) : DebugDebugger :=
  { st with ghost_aborted :=
      dictSet st.ghost_aborted t (dictGet st.ghost_aborted t 0 + 1) }

def incDepth (st : DebugDebugger) : DebugDebugger :=
  { st with recursive_depth := st.recursive_depth + 1 }

def decDepth (st : DebugDebugger) : DebugDebugger :=
  { st with recursive_depth := st.recursive_depth - 1 }

def advanceClock (st : DebugDebugger) (n : Nat) : DebugDebugger :=
  { st with clock := st.clock + n }

def updateInst (st : DebugDebugger) (t : String) (f : ToolInstance → ToolInstance) :
    DebugDebugger :=
  let stats := dictGet st.debug_tools_registry t defaultRec
  { st with debug_tools_registry :=
      dictSet st.debug_tools_registry t { stats with inst := f stats.inst } }

def bumpOrigCalls (st : DebugDebugger) (t : String) : DebugDebugger :=
  updateInst st t (fun i => { i with orig_calls := i.orig_calls + 1 })

/- `_record_success` (src/debug_debugger.py lines 126-150). -/
def record_success (st : DebugDebugger) (tool_name method_name : String)
    (elapsed : Nat) (memory_delta : Int) : DebugDebugger :=
  let stats := dictGet st.debug_tools_registry tool_name defaultRec
  let stats := { stats with successes := stats.successes + 1,
                            total_time := stats.total_time + elapsed,
                            last_heartbeat := st.clock }
  let hist := dictGet st.tool_performance tool_name []
  let hist := hist ++ [{ method := method_name, elapsed := elapsed,
                         memory_delta := memory_delta, timestamp := st.clock }]
  -- keep only last 100 entries per tool (Python `[-100:]`)
  let hist := if hist.length > 100 then hist.drop (hist.length - 100) else hist
  { st with debug_tools_registry := dictSet st.debug_tools_registry tool_name stats,
            tool_performance := dictSet st.tool_performance tool_name hist }

/- `_record_failure` (lines 152-175).  The source computes
`failure_rate = failures / max(successes + failures, 1)` in floating point
and tests `failure_rate > 0.3`; over exact rationals this is
`10 * failures > 3 * max (successes + failures) 1`. -/
def record_failure (st : DebugDebugger) (tool_name method_name exc : String) :
    DebugDebugger :=
  let stats := dictGet st.debug_tools_registry tool_name defaultRec
  let stats := { stats with failures := stats.failures + 1 }
  let fr : FailureRec := { tool := tool_name, method := method_name,
                           exception := exc, timestamp := st.clock }
  let st := { st with tool_failures := st.tool_failures ++ [fr] }
  let unhealthy := 10 * stats.failures > 3 * max (stats.successes + stats.failures) 1
  let stats := if unhealthy then { stats with status := "unhealthy" } else stats
  let st := if unhealthy then emit st (Event.unhealthyAlert tool_name) else st
  { st with debug_tools_registry := dictSet st.debug_tools_registry tool_name stats }

/-- Python `hasattr(x, "__len__")` and `len(x)` for the modeled values. -/
def pyLen : Value → Option Nat
  | Value.str s => some s.length
  | _ => none

/-- Python `x[:10]` for the modeled sized values. -/
def pyTruncate10 : Value → Value
  | Value.str s => Value.str ⟨s.toList.take 10⟩
  | v => v

/- Strategies 2 and 3 of `_attempt_self_heal` (lines 192-211).  `callSlot st m a`
performs `getattr(registry[tool]["instance"], m)(*a)` on the current state,
i.e. invokes the (wrapped) method currently installed on the slot. -/
def heal_rest (st : DebugDebugger) (tool_name m exc : String) (args : List Value)
    (callSlot : DebugDebugger → String → List Value → DebugDebugger × Except String Value) :
    DebugDebugger × Value :=
  -- Strategy 2: clear any caches (no observable effect beyond the attempt)
  let st := if (instAt st tool_name).has_clear_cache then
      emit st (Event.cacheCleared tool_name) else st
  -- Strategy 3: reduce data size if possible
  if lowerContains exc "memory" then
    match args with
    | [] => (st, Value.none)
    | a :: rest =>
      match pyLen a with
      | some n =>
        if n > 10 then
          match callSlot st m (pyTruncate10 a :: rest) with
          | (st2, Except.ok v) => (st2, v)
          | (st2, Except.error _) => (st2, Value.none)
        else (st, Value.none)
      | Option.none => (st, Value.none)
  else (st, Value.none)

/- `_attempt_self_heal` (lines 177-211).  Strategy 1: on a timeout-flavored
message, retry `getattr(tool, method_name.replace(tool_name + ".", ""))` once
with identical arguments; a raised retry is swallowed and the remaining
strategies run; a retry that returns (even returning None) is returned
directly. -/
def attempt_self_heal (st : DebugDebugger) (tool_name method_name exc : String)
    (args : List Value)
    (callSlot : DebugDebugger → String → List Value → DebugDebugger × Except String Value) :
    DebugDebugger × Value :=
  let m := strReplace method_name (tool_name ++ ".") ""
  if lowerContains exc "timeout" then
    -- time.sleep(0.1) is a no-op in the model
    match callSlot st m args with
    | (st1, Except.ok v) => (st1, v)
    | (st1, Except.error _) => heal_rest st1 tool_name m exc args callSlot
  else heal_rest st tool_name m exc args callSlot

/- `_document_debugger_failure` (lines 224-259): persist a forensics record
(host-machine snapshot fields omitted; the file write is assumed to succeed). -/
def document_debugger_failure (st : DebugDebugger) (tool_name method_name exc : String) :
    DebugDebugger :=
  let rec0 : ForensicsRec := { tool_name := tool_name, method_name := method_name,
                               exception := exc, timestamp := st.clock }
  let st := { st with forensics := st.forensics ++ [rec0] }
  emit st (Event.forensicsSaved tool_name method_name)

/- `_fallback_debug` (lines 213-222): emit the failure banner and return a
safe default (None). -/
def fallback_debug (st : DebugDebugger) (method_id : String) (_args : List Value) :
    DebugDebugger × Value :=
  (emit st (Event.debuggerFailed method_id), Value.none)

/- The monitoring `wrapper` produced by `_create_wrapper` (lines 55-124).
`layers` is the number of wrapper layers on the method slot being invoked:
`layers = 0` runs the underlying original method itself (advancing the
original's call count and the clock), `layers = k+1` runs one wrapper whose
captured `original_method` is the `k`-layer slot.  The self-heal retry calls
`getattr(tool, ...)`, i.e. the full currently-installed slot, looked up in the
state at retry time.  The fuel argument only bounds the recursion (the
reentrancy guard bounds real executions); with fuel exhausted the model
returns None without touching the state. -/
def callMethod : Nat → String → String → Nat → List Value → Env → DebugDebugger →
    DebugDebugger × Except String Value
  | 0, _, _, _, _, _, st => (st, Except.ok Value.none)
  | _ + 1, tool_name, _method_name, 0, args, env, st =>
      let inst0 := instAt st tool_name
      let r := inst0.orig inst0.orig_calls args
      (advanceClock (bumpOrigCalls st tool_name) env.elapsed, r)
  | fuel + 1, tool_name, method_name, layers + 1, args, env, st =>
      let method_id := tool_name ++ "." ++ method_name
      let st := bumpGhostInv st tool_name
      -- check if we are in a recursive debug loop
      if st.recursive_depth > MAX_RECURSION then
        (bumpGhostAborted (emit st (Event.inception method_id st.recursive_depth)) tool_name,
         Except.ok Value.none)
      else
        let st := incDepth st
        match callMethod fuel tool_name method_name layers args env st with
        | (st, Except.ok result) =>
            let st := record_success st tool_name method_name env.elapsed env.memory_delta
            let st := if env.elapsed > 1 then emit st (Event.slow method_id env.elapsed) else st
            let st := if env.memory_delta > 100 then
                emit st (Event.memoryLeak method_id env.memory_delta) else st
            (decDepth st, Except.ok result)
        | (st, Except.error e) =>
            let st := record_failure st tool_name method_name e
            match attempt_self_heal st tool_name method_name e args
                (fun s m a => callMethod fuel tool_name m (layersAt s tool_name) a env s) with
            | (st, healing_result) =>
                if healing_result ≠ Value.none then
                  (decDepth st, Except.ok healing_result)
                else
                  let st := document_debugger_failure st tool_name method_name e
                  match fallback_debug st method_id args with
                  | (st, fb) => (decDepth st, Except.ok fb)

/- `_instrument_tool` (lines 46-53): wrap every public callable; in the model
the tool has one monitored method slot, and wrapping adds one layer to it. -/
def instrument_tool (st : DebugDebugger) (tool_name : String) : DebugDebugger :=
  updateInst st tool_name (fun i => { i with layers := i.layers + 1 })

/- `register_debug_tool` (lines 32-44). -/
def register_debug_tool (st : DebugDebugger) (tool_name : String) (inst : ToolInstance) :
    DebugDebugger :=
  let fresh : ToolRec :=
    { inst := inst, failures := 0, successes := 0, total_time := 0,
      status := "healthy", last_heartbeat := st.clock }
  let reg := dictSet st.debug_tools_registry tool_name fresh
  let st := { st with debug_tools_registry := reg }
  instrument_tool st tool_name

/- The problem-to-debugger mapping of `get_best_debugger_for` (lines 336-344). -/
def problem_map : List (String × String) :=
  [("race_condition", "quantum_logger"),
   ("memory_leak", "memory_archaeologist"),
   ("heisenbug", "heisenberg_trap"),
   ("performance", "production_profiler"),
   ("distributed", "distributed_tombstone"),
   ("random", "probability_collapser"),
   ("unknown", "print_statements")]

/- `get_best_debugger_for` (lines 332-364).  The scan for a healthy
alternative runs only when the recommended tool is registered and not
healthy; it returns the first registered tool whose status is healthy, in
registration order.  Reaching the tail of the function, the sentinel is
returned exactly when the recommended tool is not registered. -/
def get_best_debugger_for (st : DebugDebugger) (problem_type : String) :
    DebugDebugger × String :=
  let recommended_tool := dictGet problem_map problem_type "print_statements"
  let scan : Option (DebugDebugger × String) :=
    if dictMem st.debug_tools_registry recommended_tool then
      let tool_stats := dictGet st.debug_tools_registry recommended_tool defaultRec
      if tool_stats.status ≠ "healthy" then
        match st.debug_tools_registry.find? (fun p => p.2.status == "healthy") with
        | some p => some (emit st (Event.substitution recommended_tool p.1), p.1)
        | Option.none => Option.none
      else Option.none
    else Option.none
  match scan with
  | some r => r
  | Option.none =>
    -- if no healthy debuggers, admit defeat
    if !(dictMem st.debug_tools_registry recommended_tool) then (st, "print_statements")
    else (st, recommended_tool)

/-- Per-tool entry of the health report; the source formats `failure_rate`
and `average_time` as strings, the model keeps the exact rationals. -/
structure ToolHealth where
  status : String
  failure_rate : ℚ
  average_time : ℚ
  total_calls : Nat
  last_seen : Nat

structure Report where
  tools : List (String × ToolHealth)
  overall_health : String
  recommendations : List String

/-- The in-loop unresponsiveness recomputation of `health_check` (lines
285-287): mark a tool unresponsive when its heartbeat is older than 300
seconds. -/
def health_check_stats (now : Nat) (stats : ToolRec) : ToolRec :=
  if now - stats.last_heartbeat > 300 then { stats with status := "unresponsive" }
  else stats

/- One iteration of the `health_check` loop (lines 283-317); the accumulator
carries the rebuilt registry, the per-tool report entries, the unhealthy
count and the recommendations.  Float threshold tests are written
multiplicatively: rate > 0.5 iff 2*failures > max(total,1); avg > 5 iff
total_time > 5*max(successes,1). -/
def hcStep (now : Nat)
    (acc : List (String × ToolRec) × List (String × ToolHealth) × Nat × List String)
    (p : String × ToolRec) :
    List (String × ToolRec) × List (String × ToolHealth) × Nat × List String :=
  let (done, tools, unhealthy_count, recs) := acc
  let (tool_name, stats0) := p
  let stats := health_check_stats now stats0
  let time_since_heartbeat := now - stats.last_heartbeat
  let total_calls := stats.successes + stats.failures
  let entry : ToolHealth :=
    { status := stats.status,
      failure_rate := (stats.failures : ℚ) / (max total_calls 1 : ℚ),
      average_time := (stats.total_time : ℚ) / (max stats.successes 1 : ℚ),
      total_calls := total_calls,
      last_seen := time_since_heartbeat }
  let tools := tools ++ [(tool_name, entry)]
  let isUnhealthy := stats.status ≠ "healthy"
  let unhealthy_count := if isUnhealthy then unhealthy_count + 1 else unhealthy_count
  let recs :=
    if isUnhealthy then
      if 2 * stats.failures > max total_calls 1 then
        recs ++ ["Consider replacing " ++ tool_name ++ " - failure rate too high"]
      else if time_since_heartbeat > 300 then
        recs ++ ["Restart " ++ tool_name ++ " - appears to be hung"]
      else if stats.total_time > 5 * max stats.successes 1 then
        recs ++ ["Optimize " ++ tool_name ++ " - taking too long per call"]
      else recs
    else recs
  (done ++ [(tool_name, stats)], tools, unhealthy_count, recs)

/- `health_check` (lines 272-330).  It both returns the report and mutates
the stored statuses (the unresponsive recomputation writes through to the
registry).  `unhealthy_count < len(registry)/2` over floats is
`2 * unhealthy_count < length`. -/
def health_check (now : Nat) (st : DebugDebugger) : DebugDebugger × Report :=
  let folded := st.debug_tools_registry.foldl (hcStep now) ([], [], 0, [])
  let reg := folded.1
  let tools := folded.2.1
  let unhealthy_count := folded.2.2.1
  let recs := folded.2.2.2
  let n := st.debug_tools_registry.length
  let overall := if unhealthy_count = 0 then "healthy"
    else if 2 * unhealthy_count < n then "degraded"
    else "critical"
  let recs := if unhealthy_count = 0 then recs
    else if 2 * unhealthy_count < n then recs
    else ["CRITICAL: Majority of debug tools failing. Use manual debugging."] ++ recs
  ({ st with debug_tools_registry := reg },
   { tools := tools, overall_health := overall, recommendations := recs })

/-- Operations a client can perform on a registry after setup: invoke a
wrapped method through the proxy (with enough fuel for the bounded
recursion), or run `health_check`.  `register_debug_tool` is deliberately not
an `Op`: re-registration is the external reset that discards statistics. -/
inductive Op where
  | call (fuel : Nat) (tool_name method_name : String) (args : List Value) (env : Env)
  | check (now : Nat)

def applyOp (st : DebugDebugger) (op : Op) : DebugDebugger :=
  match op with
  | Op.call fuel t m args env => (callMethod fuel t m (layersAt st t) args env st).1
  | Op.check now => (health_check now st).1

def applyOps (st : DebugDebugger) (ops : List Op) : DebugDebugger :=
  ops.foldl applyOp st

/-- A freshly constructed `DebugDebugger(paranoid_mode=True)`. -/
def initDD : DebugDebugger :=
  { paranoid_mode := true, debug_tools_registry := [], tool_failures := [],
    tool_performance := [], recursive_depth := 0, events := [], forensics := [],
    clock := 0, ghost_invocations := [], ghost_aborted := [] }

/- Concrete scenario material used by the claims. -/

/-- Timing oracle with negligible elapsed time and no memory growth. -/
def env0 : Env := { elapsed := 0, memory_delta := 0 }

/-- Method that raises a timeout-flavored error on its first call and
succeeds on later calls, returning its integer argument plus one. -/
def origTimeoutThenOk : Nat → List Value → Except String Value
  | 0, _ => Except.error "Connection timeout"
  | _ + 1, [Value.int x] => Except.ok (Value.int (x + 1))
  | _ + 1, _ => Except.ok Value.none

/-- Method that always succeeds returning the integer 7. -/
def origAlwaysOk : Nat → List Value → Except String Value :=
  fun _ _ => Except.ok (Value.int 7)

/-- Method that raises a timeout-flavored error on every call. -/
def origAlwaysTimeout : Nat → List Value → Except String Value :=
  fun _ _ => Except.error "timeout while reading"

/-- Method that raises a non-timeout, non-memory error on every call. -/
def origAlwaysBoom : Nat → List Value → Except String Value :=
  fun _ _ => Except.error "boom"

/-- Method that raises a timeout-flavored error on its first call and then
legitimately returns Python None. -/
def origTimeoutThenNone : Nat → List Value → Except String Value
  | 0, _ => Except.error "read timeout"
  | _ + 1, _ => Except.ok Value.none

def mkInstance (orig : Nat → List Value → Except String Value) : ToolInstance :=
  { orig := orig, orig_calls := 0, layers := 0, has_clear_cache := false }

/-- Iterated `_record_success` with per-call method names, elapsed times and
memory deltas supplied by streams (one proxy success per step). -/
def successStream (st0 : DebugDebugger) (t : String) (ms : Nat → String)
    (es : Nat → Nat) (ds : Nat → Int) : Nat → DebugDebugger
  | 0 => st0
  | n + 1 => record_success (successStream st0 t ms es ds n) t (ms n) (es n) (ds n)

/- Concrete registry states and runs used by the claim scenarios. -/

/-- Tool "A" registered with a method that fails once with a timeout then
succeeds. -/
def stTimeoutOk : DebugDebugger :=
  register_debug_tool initDD "A" (mkInstance origTimeoutThenOk)

def runTimeoutOk : DebugDebugger × Except String Value :=
  callMethod 10 "A" "f" (layersAt stTimeoutOk "A") [Value.int 5] env0 stTimeoutOk

/-- Tool "A" registered with an always-succeeding method. -/
def stAlwaysOkReg : DebugDebugger :=
  register_debug_tool initDD "A" (mkInstance origAlwaysOk)

/-- The same registry observed while four wrapped calls are already in
progress (recursion depth 4). -/
def stDepth4 : DebugDebugger := { stAlwaysOkReg with recursive_depth := 4 }

/-- Tool "A" re-registered with the same (already instrumented) instance. -/
def stRewrapped : DebugDebugger :=
  register_debug_tool stAlwaysOkReg "A" (instAt stAlwaysOkReg "A")

def runRewrapped : DebugDebugger × Except String Value :=
  callMethod 10 "A" "f" (layersAt stRewrapped "A") [Value.int 5] env0 stRewrapped

/-- Tool "A" registered with a method that times out on every call. -/
def stAlwaysTimeout : DebugDebugger :=
  register_debug_tool initDD "A" (mkInstance origAlwaysTimeout)

def runAlwaysTimeout : DebugDebugger :=
  (callMethod 10 "A" "f" (layersAt stAlwaysTimeout "A") [] env0 stAlwaysTimeout).1

/-- Tool "A" registered with a method that always raises a plain error. -/
def stBoom : DebugDebugger :=
  register_debug_tool initDD "A" (mkInstance origAlwaysBoom)

def runBoom : DebugDebugger :=
  (callMethod 10 "A" "f" (layersAt stBoom "A") [] env0 stBoom).1

/-- Tool "A" registered with a method that times out once and then returns a
legitimate None. -/
def stTimeoutNone : DebugDebugger :=
  register_debug_tool initDD "A" (mkInstance origTimeoutThenNone)

def runTimeoutNone : DebugDebugger × Except String Value :=
  callMethod 10 "A" "f" (layersAt stTimeoutNone "A") [Value.int 1] env0 stTimeoutNone

/-- Only a healthy tool "B" is registered; the tool mapped for memory_leak
("memory_archaeologist") is not. -/
def stBOnly : DebugDebugger :=
  register_debug_tool initDD "B" (mkInstance origAlwaysOk)

/-- "memory_archaeologist" registered and driven unhealthy by one failing
call; no healthy tool exists. -/
def stMemArchReg : DebugDebugger :=
  register_debug_tool initDD "memory_archaeologist" (mkInstance origAlwaysBoom)

def stMemArch : DebugDebugger :=
  (callMethod 10 "memory_archaeologist" "f" (layersAt stMemArchReg "memory_archaeologist")
    [] env0 stMemArchReg).1

/-- Conservation shape for the invocation-accounting invariant: between two
states, each tool's successes+failures+aborts grew by exactly as much as its
ghost invocation count. -/
def Conserves (a b : DebugDebugger) : Prop :=
  ∀ t, succAt b t + failAt b t + abortAt b t + invAt a t
     = succAt a t + failAt a t + abortAt a t + invAt b t

/- Association-list lemmas. -/

theorem dictGet_dictSet {α : Type} (d : List (String × α)) (k k' : String) (v : α)
    (dflt : α) :
    dictGet (dictSet d k v) k' dflt = if k = k' then v else dictGet d k' dflt := by
  induction d with
  | nil => simp [dictGet, dictSet]
  | cons p rest ih =>
    obtain ⟨pk, pv⟩ := p
    by_cases h1 : pk = k
    · subst h1
      by_cases h2 : pk = k'
      · subst h2; simp [dictGet, dictSet]
      · simp [dictGet, dictSet, h2]
    · by_cases h2 : pk = k'
      · subst h2
        have : ¬ k = pk := fun h => h1 h.symm
        simp [dictGet, dictSet, h1, this]
      · simp [dictGet, dictSet, h1, h2, ih]

theorem dictGet_of_not_mem {α : Type} (d : List (String × α)) (k : String) (dflt : α)
    (h : dictMem d k = false) : dictGet d k dflt = dflt := by
  induction d with
  | nil => simp [dictGet]
  | cons p rest ih =>
    obtain ⟨pk, pv⟩ := p
    by_cases h1 : pk = k
    · simp [dictMem, h1] at h
    · simp [dictMem, h1] at h
      simp [dictGet, h1, ih h]

theorem dictGet_map_value {α : Type} (d : List (String × α)) (f : α → α) (k : String)
    (dflt : α) :
    dictGet (d.map (fun p => (p.1, f p.2))) k dflt
      = if dictMem d k then f (dictGet d k dflt) else dflt := by
  induction d with
  | nil => simp [dictGet, dictMem]
  | cons p rest ih =>
    obtain ⟨pk, pv⟩ := p
    by_cases h1 : pk = k
    · simp [dictGet, dictMem, h1]
    · simp [dictGet, dictMem, h1, ih]

/- Effect of each primitive state transformer on the observation
projections. -/

@[simp] theorem succAt_emit (st : DebugDebugger) (e : Event) (t : String) :
    succAt (emit st e) t = succAt st t := rfl

@[simp] theorem failAt_emit (st : DebugDebugger) (e : Event) (t : String) :
    failAt (emit st e) t = failAt st t := rfl

@[simp] theorem statusAt_emit (st : DebugDebugger) (e : Event) (t : String) :
    statusAt (emit st e) t = statusAt st t := rfl

@[simp] theorem invAt_emit (st : DebugDebugger) (e : Event) (t : String) :
    invAt (emit st e) t = invAt st t := rfl

@[simp] theorem abortAt_emit (st : DebugDebugger) (e : Event) (t : String) :
    abortAt (emit st e) t = abortAt st t := rfl

@[simp] theorem origCallsAt_emit (st : DebugDebugger) (e : Event) (t : String) :
    origCallsAt (emit st e) t = origCallsAt st t := rfl

@[simp] theorem succAt_incDepth (st : DebugDebugger) (t : String) :
    succAt (incDepth st) t = succAt st t := rfl

@[simp] theorem failAt_incDepth (st : DebugDebugger) (t : String) :
    failAt (incDepth st) t = failAt st t := rfl

@[simp] theorem statusAt_incDepth (st : DebugDebugger) (t : String) :
    statusAt (incDepth st) t = statusAt st t := rfl

@[simp] theorem invAt_incDepth (st : DebugDebugger) (t : String) :
    invAt (incDepth st) t = invAt st t := rfl

@[simp] theorem abortAt_incDepth (st : DebugDebugger) (t : String) :
    abortAt (incDepth st) t = abortAt st t := rfl

@[simp] theorem origCallsAt_incDepth (st : DebugDebugger) (t : String) :
    origCallsAt (incDepth st) t = origCallsAt st t := rfl

@[simp] theorem succAt_decDepth (st : DebugDebugger) (t : String) :
    succAt (decDepth st) t = succAt st t := rfl

@[simp] theorem failAt_decDepth (st : DebugDebugger) (t : String) :
    failAt (decDepth st) t = failAt st t := rfl

@[simp] theorem statusAt_decDepth (st : DebugDebugger) (t : String) :
    statusAt (decDepth st) t = statusAt st t := rfl

@[simp] theorem invAt_decDepth (st : DebugDebugger) (t : String) :
    invAt (decDepth st) t = invAt st t := rfl

@[simp] theorem abortAt_decDepth (st : DebugDebugger) (t : String) :
    abortAt (decDepth st) t = abortAt st t := rfl

@[simp] theorem origCallsAt_decDepth (st : DebugDebugger) (t : String) :
    origCallsAt (decDepth st) t = origCallsAt st t := rfl

@[simp] theorem succAt_advanceClock (st : DebugDebugger) (n : Nat) (t : String) :
    succAt (advanceClock st n) t = succAt st t := rfl

@[simp] theorem failAt_advanceClock (st : DebugDebugger) (n : Nat) (t : String) :
    failAt (advanceClock st n) t = failAt st t := rfl

@[simp] theorem statusAt_advanceClock (st : DebugDebugger) (n : Nat) (t : String) :
    statusAt (advanceClock st n) t = statusAt st t := rfl

@[simp] theorem invAt_advanceClock (st : DebugDebugger) (n : Nat) (t : String) :
    invAt (advanceClock st n) t = invAt st t := rfl

@[simp] theorem abortAt_advanceClock (st : DebugDebugger) (n : Nat) (t : String) :
    abortAt (advanceClock st n) t = abortAt st t := rfl

@[simp] theorem origCallsAt_advanceClock (st : DebugDebugger) (n : Nat) (t : String) :
    origCallsAt (advanceClock st n) t = origCallsAt st t := rfl

@[simp] theorem succAt_bumpGhostInv (st : DebugDebugger) (t0 t : String) :
    succAt (bumpGhostInv st t0) t = succAt st t := rfl

@[simp] theorem failAt_bumpGhostInv (st : DebugDebugger) (t0 t : String) :
    failAt (bumpGhostInv st t0) t = failAt st t := rfl

@[simp] theorem statusAt_bumpGhostInv (st : DebugDebugger) (t0 t : String) :
    statusAt (bumpGhostInv st t0) t = statusAt st t := rfl

@[simp] theorem abortAt_bumpGhostInv (st : DebugDebugger) (t0 t : String) :
    abortAt (bumpGhostInv st t0) t = abortAt st t := rfl

@[simp] theorem origCallsAt_bumpGhostInv (st : DebugDebugger) (t0 t : String) :
    origCallsAt (bumpGhostInv st t0) t = origCallsAt st t := rfl

theorem invAt_bumpGhostInv (st : DebugDebugger) (t0 t : String) :
    invAt (bumpGhostInv st t0) t = if t0 = t then invAt st t + 1 else invAt st t := by
  simp only [invAt, bumpGhostInv, dictGet_dictSet]
  split
  · next h => subst h; rfl
  · rfl

@[simp] theorem succAt_bumpGhostAborted (st : DebugDebugger) (t0 t : String) :
    succAt (bumpGhostAborted st t0) t = succAt st t := rfl

@[simp] theorem failAt_bumpGhostAborted (st : DebugDebugger) (t0 t : String) :
    failAt (bumpGhostAborted st t0) t = failAt st t := rfl

@[simp] theorem statusAt_bumpGhostAborted (st : DebugDebugger) (t0 t : String) :
    statusAt (bumpGhostAborted st t0) t = statusAt st t := rfl

@[simp] theorem invAt_bumpGhostAborted (st : DebugDebugger) (t0 t : String) :
    invAt (bumpGhostAborted st t0) t = invAt st t := rfl

@[simp] theorem origCallsAt_bumpGhostAborted (st : DebugDebugger) (t0 t : String) :
    origCallsAt (bumpGhostAborted st t0) t = origCallsAt st t := rfl

theorem abortAt_bumpGhostAborted (st : DebugDebugger) (t0 t : String) :
    abortAt (bumpGhostAborted st t0) t
      = if t0 = t then abortAt st t + 1 else abortAt st t := by
  simp only [abortAt, bumpGhostAborted, dictGet_dictSet]
  split
  · next h => subst h; rfl
  · rfl

theorem succAt_bumpOrigCalls (st : DebugDebugger) (t0 t : String) :
    succAt (bumpOrigCalls st t0) t = succAt st t := by
  simp only [succAt, bumpOrigCalls, updateInst, dictGet_dictSet]
  split
  · next h => subst h; rfl
  · rfl

theorem failAt_bumpOrigCalls (st : DebugDebugger) (t0 t : String) :
    failAt (bumpOrigCalls st t0) t = failAt st t := by
  simp only [failAt, bumpOrigCalls, updateInst, dictGet_dictSet]
  split
  · next h => subst h; rfl
  · rfl

theorem statusAt_bumpOrigCalls (st : DebugDebugger) (t0 t : String) :
    statusAt (bumpOrigCalls st t0) t = statusAt st t := by
  simp only [statusAt, bumpOrigCalls, updateInst, dictGet_dictSet]
  split
  · next h => subst h; rfl
  · rfl

@[simp] theorem invAt_bumpOrigCalls (st : DebugDebugger) (t0 t : String) :
    invAt (bumpOrigCalls st t0) t = invAt st t := rfl

@[simp] theorem abortAt_bumpOrigCalls (st : DebugDebugger) (t0 t : String) :
    abortAt (bumpOrigCalls st t0) t = abortAt st t := rfl

theorem origCallsAt_bumpOrigCalls (st : DebugDebugger) (t0 t : String) :
    origCallsAt (bumpOrigCalls st t0) t
      = if t0 = t then origCallsAt st t + 1 else origCallsAt st t := by
  simp only [origCallsAt, instAt, bumpOrigCalls, updateInst, dictGet_dictSet]
  split
  · next h => subst h; rfl
  · rfl

theorem succAt_record_success (st : DebugDebugger) (t0 mn : String) (e : Nat)
    (d : Int) (t : String) :
    succAt (record_success st t0 mn e d) t
      = if t0 = t then succAt st t + 1 else succAt st t := by
  simp only [succAt, record_success, dictGet_dictSet]
  split
  · next h => subst h; rfl
  · rfl

theorem failAt_record_success (st : DebugDebugger) (t0 mn : String) (e : Nat)
    (d : Int) (t : String) :
    failAt (record_success st t0 mn e d) t = failAt st t := by
  simp only [failAt, record_success, dictGet_dictSet]
  split
  · next h => subst h; rfl
  · rfl

theorem statusAt_record_success (st : DebugDebugger) (t0 mn : String) (e : Nat)
    (d : Int) (t : String) :
    statusAt (record_success st t0 mn e d) t = statusAt st t := by
  simp only [statusAt, record_success, dictGet_dictSet]
  split
  · next h => subst h; rfl
  · rfl

theorem origCallsAt_record_success (st : DebugDebugger) (t0 mn : String) (e : Nat)
    (d : Int) (t : String) :
    origCallsAt (record_success st t0 mn e d) t = origCallsAt st t := by
  simp only [origCallsAt, instAt, record_success, dictGet_dictSet]
  split
  · next h => subst h; rfl
  · rfl

@[simp] theorem invAt_record_success (st : DebugDebugger) (t0 mn : String) (e : Nat)
    (d : Int) (t : String) :
    invAt (record_success st t0 mn e d) t = invAt st t := rfl

@[simp] theorem abortAt_record_success (st : DebugDebugger) (t0 mn : String) (e : Nat)
    (d : Int) (t : String) :
    abortAt (record_success st t0 mn e d) t = abortAt st t := rfl

@[simp] theorem clock_record_success (st : DebugDebugger) (t0 mn : String) (e : Nat)
    (d : Int) : (record_success st t0 mn e d).clock = st.clock := rfl

theorem failAt_record_failure (st : DebugDebugger) (t0 mn exc : String) (t : String) :
    failAt (record_failure st t0 mn exc) t
      = if t0 = t then failAt st t + 1 else failAt st t := by
  simp only [failAt, record_failure, dictGet_dictSet]
  split <;> split
  · next h _ => subst h; rfl
  · next h _ => subst h; rfl
  · rfl
  · rfl

theorem succAt_record_failure (st : DebugDebugger) (t0 mn exc : String) (t : String) :
    succAt (record_failure st t0 mn exc) t = succAt st t := by
  simp only [succAt, record_failure, dictGet_dictSet]
  split <;> split
  · next h _ => subst h; rfl
  · next h _ => subst h; rfl
  · rfl
  · rfl

theorem statusAt_record_failure (st : DebugDebugger) (t0 mn exc : String) (t : String) :
    statusAt (record_failure st t0 mn exc) t = statusAt st t
      ∨ statusAt (record_failure st t0 mn exc) t = "unhealthy" := by
  simp only [statusAt, record_failure, dictGet_dictSet]
  split <;> split
  · next h _ => right; subst h; rfl
  · next h _ => left; subst h; rfl
  · left; rfl
  · left; rfl

theorem origCallsAt_record_failure (st : DebugDebugger) (t0 mn exc : String)
    (t : String) :
    origCallsAt (record_failure st t0 mn exc) t = origCallsAt st t := by
  simp only [origCallsAt, instAt, record_failure, dictGet_dictSet]
  split <;> split
  · next h _ => subst h; rfl
  · next h _ => subst h; rfl
  · rfl
  · rfl

@[simp] theorem invAt_record_failure (st : DebugDebugger) (t0 mn exc : String)
    (t : String) : invAt (record_failure st t0 mn exc) t = invAt st t := by
  simp only [invAt, record_failure]
  split <;> rfl

@[simp] theorem abortAt_record_failure (st : DebugDebugger) (t0 mn exc : String)
    (t : String) : abortAt (record_failure st t0 mn exc) t = abortAt st t := by
  simp only [abortAt, record_failure]
  split <;> rfl

@[simp] theorem succAt_document (st : DebugDebugger) (t0 mn exc : String)
    (t : String) :
    succAt (document_debugger_failure st t0 mn exc) t = succAt st t := rfl

@[simp] theorem failAt_document (st : DebugDebugger) (t0 mn exc : String)
    (t : String) :
    failAt (document_debugger_failure st t0 mn exc) t = failAt st t := rfl

@[simp] theorem statusAt_document (st : DebugDebugger) (t0 mn exc : String)
    (t : String) :
    statusAt (document_debugger_failure st t0 mn exc) t = statusAt st t := rfl

@[simp] theorem invAt_document (st : DebugDebugger) (t0 mn exc : String)
    (t : String) :
    invAt (document_debugger_failure st t0 mn exc) t = invAt st t := rfl

@[simp] theorem abortAt_document (st : DebugDebugger) (t0 mn exc : String)
    (t : String) :
    abortAt (document_debugger_failure st t0 mn exc) t = abortAt st t := rfl

@[simp] theorem origCallsAt_document (st : DebugDebugger) (t0 mn exc : String)
    (t : String) :
    origCallsAt (document_debugger_failure st t0 mn exc) t = origCallsAt st t := rfl

@[simp] theorem fallback_debug_fst (st : DebugDebugger) (mid : String)
    (args : List Value) :
    (fallback_debug st mid args).1 = emit st (Event.debuggerFailed mid) := rfl

@[simp] theorem fallback_debug_snd (st : DebugDebugger) (mid : String)
    (args : List Value) : (fallback_debug st mid args).2 = Value.none := rfl

@[simp] theorem succAt_ite_emit (c : Prop) [Decidable c] (s : DebugDebugger)
    (e : Event) (t : String) :
    succAt (if c then emit s e else s) t = succAt s t := by split <;> rfl

@[simp] theorem failAt_ite_emit (c : Prop) [Decidable c] (s : DebugDebugger)
    (e : Event) (t : String) :
    failAt (if c then emit s e else s) t = failAt s t := by split <;> rfl

@[simp] theorem statusAt_ite_emit (c : Prop) [Decidable c] (s : DebugDebugger)
    (e : Event) (t : String) :
    statusAt (if c then emit s e else s) t = statusAt s t := by split <;> rfl

@[simp] theorem invAt_ite_emit (c : Prop) [Decidable c] (s : DebugDebugger)
    (e : Event) (t : String) :
    invAt (if c then emit s e else s) t = invAt s t := by split <;> rfl

@[simp] theorem abortAt_ite_emit (c : Prop) [Decidable c] (s : DebugDebugger)
    (e : Event) (t : String) :
    abortAt (if c then emit s e else s) t = abortAt s t := by split <;> rfl

@[simp] theorem origCallsAt_ite_emit (c : Prop) [Decidable c] (s : DebugDebugger)
    (e : Event) (t : String) :
    origCallsAt (if c then emit s e else s) t = origCallsAt s t := by split <;> rfl

/- Conservation of the invocation accounting. -/

theorem conserves_refl (a : DebugDebugger) : Conserves a a := fun _ => rfl

theorem conserves_trans {a b c : DebugDebugger} (h1 : Conserves a b)
    (h2 : Conserves b c) : Conserves a c := by
  intro t
  have e1 := h1 t
  have e2 := h2 t
  omega

theorem conserves_emit (st : DebugDebugger) (e : Event) : Conserves st (emit st e) := by
  intro t; simp

theorem heal_rest_conserves (st : DebugDebugger) (tn m exc : String)
    (args : List Value)
    (cb : DebugDebugger → String → List Value → DebugDebugger × Except String Value)
    (hcb : ∀ s mm a, Conserves s ((cb s mm a).1)) :
    Conserves st ((heal_rest st tn m exc args cb).1) := by
  have base : ∀ s0 : DebugDebugger, Conserves st s0 → Conserves st
      ((if (instAt s0 tn).has_clear_cache then emit s0 (Event.cacheCleared tn) else s0)) := by
    intro s0 h0
    split
    · exact conserves_trans h0 (conserves_emit s0 _)
    · exact h0
  simp only [heal_rest]
  have h1 : Conserves st
      (if (instAt st tn).has_clear_cache then emit st (Event.cacheCleared tn) else st) :=
    base st (conserves_refl st)
  set st1 := if (instAt st tn).has_clear_cache then emit st (Event.cacheCleared tn) else st with hst1
  split
  · -- memory-flavored message
    match args with
    | [] => exact h1
    | a :: rest =>
      cases hl : pyLen a with
      | none => simp only [hl]; exact h1
      | some n =>
        simp only [hl]
        split
        · -- n > 10: retry with truncated first argument
          cases hc : cb st1 m (pyTruncate10 a :: rest) with
          | mk s2 r =>
            have h2 : Conserves st1 s2 := by
              have := hcb st1 m (pyTruncate10 a :: rest)
              rw [hc] at this
              exact this
            cases r <;> simpa using conserves_trans h1 h2
        · exact h1
  · exact h1

theorem attempt_self_heal_conserves (st : DebugDebugger) (tn mn exc : String)
    (args : List Value)
    (cb : DebugDebugger → String → List Value → DebugDebugger × Except String Value)
    (hcb : ∀ s mm a, Conserves s ((cb s mm a).1)) :
    Conserves st ((attempt_self_heal st tn mn exc args cb).1) := by
  simp only [attempt_self_heal]
  split
  · cases hc : cb st (strReplace mn (tn ++ ".") "") args with
    | mk s1 r =>
      have h1 : Conserves st s1 := by
        have := hcb st (strReplace mn (tn ++ ".") "") args
        rw [hc] at this
        exact this
      cases r with
      | ok v => simpa using h1
      | error e =>
        simpa using conserves_trans h1
          (heal_rest_conserves s1 tn (strReplace mn (tn ++ ".") "") exc args cb hcb)
  · exact heal_rest_conserves st tn (strReplace mn (tn ++ ".") "") exc args cb hcb

theorem callMethod_conserves : ∀ (fuel : Nat) (tn mn : String) (layers : Nat)
    (args : List Value) (env : Env) (st : DebugDebugger),
    Conserves st (callMethod fuel tn mn layers args env st).1 := by
  intro fuel
  induction fuel with
  | zero =>
    intro tn mn layers args env st
    simp only [callMethod]
    exact conserves_refl st
  | succ fuel ih =>
    intro tn mn layers args env st
    cases layers with
    | zero =>
      simp only [callMethod]
      intro t
      simp [succAt_bumpOrigCalls, failAt_bumpOrigCalls]
    | succ L =>
      simp only [callMethod]
      split
      · -- reentrancy trip: one invocation, one abort
        intro t
        by_cases htn : tn = t
        · subst htn
          simp [invAt_bumpGhostInv, abortAt_bumpGhostAborted]
          omega
        · simp [invAt_bumpGhostInv, abortAt_bumpGhostAborted, htn]
      · -- main path
        cases hf : callMethod fuel tn mn L args env (incDepth (bumpGhostInv st tn)) with
        | mk st2 res =>
          have hih : Conserves (incDepth (bumpGhostInv st tn)) st2 := by
            have h0 := ih tn mn L args env (incDepth (bumpGhostInv st tn))
            rw [hf] at h0
            exact h0
          cases res with
          | ok r =>
            dsimp only
            intro t
            have h2 := hih t
            by_cases htn : tn = t
            · subst htn
              simp [invAt_bumpGhostInv] at h2
              simp [succAt_record_success, failAt_record_success]
              omega
            · simp [invAt_bumpGhostInv, htn] at h2
              simp [succAt_record_success, failAt_record_success, htn]
              omega
          | error e =>
            dsimp only
            have hcb : ∀ (s : DebugDebugger) (mm : String) (a : List Value),
                Conserves s ((callMethod fuel tn mm (layersAt s tn) a env s).1) :=
              fun s mm a => ih tn mm (layersAt s tn) a env s
            have hheal := attempt_self_heal_conserves (record_failure st2 tn mn e)
              tn mn e args (fun s m a => callMethod fuel tn m (layersAt s tn) a env s) hcb
            split
            · -- healing returned a non-None value
              intro t
              have h2 := hih t
              have h4 := hheal t
              by_cases htn : tn = t
              · subst htn
                simp [invAt_bumpGhostInv] at h2
                simp [succAt_record_failure, failAt_record_failure] at h4
                simp
                omega
              · simp [invAt_bumpGhostInv, htn] at h2
                simp [succAt_record_failure, failAt_record_failure, htn] at h4
                simp
                omega
            · -- healing yielded nothing: document and fall back
              intro t
              have h2 := hih t
              have h4 := hheal t
              by_cases htn : tn = t
              · subst htn
                simp [invAt_bumpGhostInv] at h2
                simp [succAt_record_failure, failAt_record_failure] at h4
                simp
                omega
              · simp [invAt_bumpGhostInv, htn] at h2
                simp [succAt_record_failure, failAt_record_failure, htn] at h4
                simp
                omega

/- `health_check` structural lemmas. -/

theorem hc_fold_registry (now : Nat) (l : List (String × ToolRec))
    (done : List (String × ToolRec)) (tools : List (String × ToolHealth))
    (c : Nat) (recs : List String) :
    (l.foldl (hcStep now) (done, tools, c, recs)).1
      = done ++ l.map (fun p => (p.1, health_check_stats now p.2)) := by
  induction l generalizing done tools c recs with
  | nil => simp
  | cons p rest ih =>
    obtain ⟨pk, pv⟩ := p
    simp only [List.foldl_cons, hcStep]
    rw [ih]
    simp

theorem health_check_registry (now : Nat) (st : DebugDebugger) :
    (health_check now st).1.debug_tools_registry
      = st.debug_tools_registry.map (fun p => (p.1, health_check_stats now p.2)) := by
  have h := hc_fold_registry now st.debug_tools_registry [] [] 0 []
  simp only [health_check]
  simpa using h

theorem hcs_successes (now : Nat) (r : ToolRec) :
    (health_check_stats now r).successes = r.successes := by
  unfold health_check_stats
  split <;> rfl

theorem hcs_failures (now : Nat) (r : ToolRec) :
    (health_check_stats now r).failures = r.failures := by
  unfold health_check_stats
  split <;> rfl

theorem hcs_status (now : Nat) (r : ToolRec) :
    (health_check_stats now r).status = r.status
      ∨ (health_check_stats now r).status = "unresponsive" := by
  unfold health_check_stats
  split
  · right; rfl
  · left; rfl

theorem succAt_health_check (now : Nat) (st : DebugDebugger) (t : String) :
    succAt (health_check now st).1 t = succAt st t := by
  simp only [succAt]
  rw [health_check_registry, dictGet_map_value]
  split
  · exact hcs_successes now _
  · next hmem =>
    rw [dictGet_of_not_mem st.debug_tools_registry t defaultRec (by simpa using hmem)]

theorem failAt_health_check (now : Nat) (st : DebugDebugger) (t : String) :
    failAt (health_check now st).1 t = failAt st t := by
  simp only [failAt]
  rw [health_check_registry, dictGet_map_value]
  split
  · exact hcs_failures now _
  · next hmem =>
    rw [dictGet_of_not_mem st.debug_tools_registry t defaultRec (by simpa using hmem)]

@[simp] theorem invAt_health_check (now : Nat) (st : DebugDebugger) (t : String) :
    invAt (health_check now st).1 t = invAt st t := rfl

@[simp] theorem abortAt_health_check (now : Nat) (st : DebugDebugger) (t : String) :
    abortAt (health_check now st).1 t = abortAt st t := rfl

theorem statusAt_health_check_ne (now : Nat) (st : DebugDebugger) (t : String)
    (h : statusAt st t ≠ "healthy") :
    statusAt (health_check now st).1 t ≠ "healthy" := by
  simp only [statusAt] at h ⊢
  rw [health_check_registry, dictGet_map_value]
  split
  · rcases hcs_status now (dictGet st.debug_tools_registry t defaultRec) with h1 | h1 <;>
      rw [h1]
    · exact h
    · decide
  · next hmem =>
    rw [dictGet_of_not_mem st.debug_tools_registry t defaultRec (by simpa using hmem)] at h
    exact absurd rfl h

/- Status preservation: no operation ever sets a non-healthy status back to
"healthy" (only re-registration does). -/

theorem statusAt_record_failure_ne (st : DebugDebugger) (t0 mn exc : String)
    (t : String) (h : statusAt st t ≠ "healthy") :
    statusAt (record_failure st t0 mn exc) t ≠ "healthy" := by
  rcases statusAt_record_failure st t0 mn exc t with h1 | h1 <;> rw [h1]
  · exact h
  · decide

theorem heal_rest_status (st : DebugDebugger) (tn m exc : String) (args : List Value)
    (cb : DebugDebugger → String → List Value → DebugDebugger × Except String Value)
    (hcb : ∀ s mm a t, statusAt s t ≠ "healthy" → statusAt ((cb s mm a).1) t ≠ "healthy")
    (t : String) (h : statusAt st t ≠ "healthy") :
    statusAt ((heal_rest st tn m exc args cb).1) t ≠ "healthy" := by
  simp only [heal_rest]
  have h1 : statusAt
      (if (instAt st tn).has_clear_cache then emit st (Event.cacheCleared tn) else st) t
        ≠ "healthy" := by
    split
    · simpa using h
    · exact h
  set st1 := if (instAt st tn).has_clear_cache then emit st (Event.cacheCleared tn) else st
  split
  · match args with
    | [] => exact h1
    | a :: rest =>
      cases hl : pyLen a with
      | none => simp only [hl]; exact h1
      | some n =>
        simp only [hl]
        split
        · cases hc : cb st1 m (pyTruncate10 a :: rest) with
          | mk s2 r =>
            have h2 := hcb st1 m (pyTruncate10 a :: rest) t h1
            rw [hc] at h2
            cases r <;> simpa using h2
        · exact h1
  · exact h1

theorem attempt_self_heal_status (st : DebugDebugger) (tn mn exc : String)
    (args : List Value)
    (cb : DebugDebugger → String → List Value → DebugDebugger × Except String Value)
    (hcb : ∀ s mm a t, statusAt s t ≠ "healthy" → statusAt ((cb s mm a).1) t ≠ "healthy")
    (t : String) (h : statusAt st t ≠ "healthy") :
    statusAt ((attempt_self_heal st tn mn exc args cb).1) t ≠ "healthy" := by
  simp only [attempt_self_heal]
  split
  · cases hc : cb st (strReplace mn (tn ++ ".") "") args with
    | mk s1 r =>
      have h1 := hcb st (strReplace mn (tn ++ ".") "") args t h
      rw [hc] at h1
      cases r with
      | ok v => simpa using h1
      | error e =>
        simpa using heal_rest_status s1 tn (strReplace mn (tn ++ ".") "") exc args cb hcb t
          (by simpa using h1)
  · exact heal_rest_status st tn (strReplace mn (tn ++ ".") "") exc args cb hcb t h

theorem callMethod_status : ∀ (fuel : Nat) (tn mn : String) (layers : Nat)
    (args : List Value) (env : Env) (st : DebugDebugger) (t : String),
    statusAt st t ≠ "healthy" →
    statusAt (callMethod fuel tn mn layers args env st).1 t ≠ "healthy" := by
  intro fuel
  induction fuel with
  | zero =>
    intro tn mn layers args env st t h
    simpa only [callMethod] using h
  | succ fuel ih =>
    intro tn mn layers args env st t h
    cases layers with
    | zero =>
      simp only [callMethod, statusAt_advanceClock]
      rw [statusAt_bumpOrigCalls]
      exact h
    | succ L =>
      simp only [callMethod]
      split
      · simpa using h
      · cases hf : callMethod fuel tn mn L args env (incDepth (bumpGhostInv st tn)) with
        | mk st2 res =>
          have h2 : statusAt st2 t ≠ "healthy" := by
            have h0 := ih tn mn L args env (incDepth (bumpGhostInv st tn)) t (by simpa using h)
            rw [hf] at h0
            exact h0
          cases res with
          | ok r =>
            dsimp only
            rw [statusAt_decDepth, statusAt_ite_emit, statusAt_ite_emit,
              statusAt_record_success]
            exact h2
          | error e =>
            dsimp only
            have hcb : ∀ (s : DebugDebugger) (mm : String) (a : List Value) (t' : String),
                statusAt s t' ≠ "healthy" →
                statusAt ((callMethod fuel tn mm (layersAt s tn) a env s).1) t' ≠ "healthy" :=
              fun s mm a t' h' => ih tn mm (layersAt s tn) a env s t' h'
            have h3 : statusAt (record_failure st2 tn mn e) t ≠ "healthy" :=
              statusAt_record_failure_ne st2 tn mn e t h2
            have h4 := attempt_self_heal_status (record_failure st2 tn mn e) tn mn e args
              (fun s m a => callMethod fuel tn m (layersAt s tn) a env s) hcb t h3
            split
            · simpa using h4
            · simpa using h4

/- Lifting conservation and status preservation to operation sequences. -/

theorem applyOp_conserves (st : DebugDebugger) (op : Op) :
    Conserves st (applyOp st op) := by
  cases op with
  | call fuel tn mn args env =>
    exact callMethod_conserves fuel tn mn (layersAt st tn) args env st
  | check now =>
    intro t
    dsimp only [applyOp]
    rw [succAt_health_check, failAt_health_check]
    simp

theorem applyOps_conserves (ops : List Op) (st : DebugDebugger) :
    Conserves st (applyOps st ops) := by
  induction ops generalizing st with
  | nil => exact conserves_refl st
  | cons op rest ih =>
    have h1 := applyOp_conserves st op
    have h2 := ih (applyOp st op)
    have : applyOps st (op :: rest) = applyOps (applyOp st op) rest := by
      simp [applyOps]
    rw [this]
    exact conserves_trans h1 h2

theorem applyOp_status (st : DebugDebugger) (op : Op) (t : String)
    (h : statusAt st t ≠ "healthy") : statusAt (applyOp st op) t ≠ "healthy" := by
  cases op with
  | call fuel tn mn args env =>
    exact callMethod_status fuel tn mn (layersAt st tn) args env st t h
  | check now => exact statusAt_health_check_ne now st t h

theorem applyOps_status (ops : List Op) (st : DebugDebugger) (t : String)
    (h : statusAt st t ≠ "healthy") : statusAt (applyOps st ops) t ≠ "healthy" := by
  induction ops generalizing st with
  | nil => simpa [applyOps] using h
  | cons op rest ih =>
    have : applyOps st (op :: rest) = applyOps (applyOp st op) rest := by
      simp [applyOps]
    rw [this]
    exact ih (applyOp st op) (applyOp_status st op t h)

/- The bounded per-tool outcome history. -/

theorem histAt_record_success (st : DebugDebugger) (t0 mn : String) (e : Nat)
    (d : Int) :
    histAt (record_success st t0 mn e d) t0
      = (let h2 := histAt st t0 ++ [Perf.mk mn e d st.clock];
         if h2.length > 100 then h2.drop (h2.length - 100) else h2) := by
  simp [histAt, record_success, dictGet_dictSet]

theorem successStream_clock (st0 : DebugDebugger) (t : String) (ms : Nat → String)
    (es : Nat → Nat) (ds : Nat → Int) : ∀ n,
    (successStream st0 t ms es ds n).clock = st0.clock := by
  intro n
  induction n with
  | zero => rfl
  | succ n ih => simp [successStream, ih]

theorem successStream_succ (st0 : DebugDebugger) (t : String) (ms : Nat → String)
    (es : Nat → Nat) (ds : Nat → Int) (n : Nat) :
    successStream st0 t ms es ds (n + 1)
      = record_success (successStream st0 t ms es ds n) t (ms n) (es n) (ds n) := rfl

theorem bounded_history_aux (st0 : DebugDebugger) (t : String) (ms : Nat → String)
    (es : Nat → Nat) (ds : Nat → Int) (h0 : histAt st0 t = []) (n : Nat) :
    histAt (successStream st0 t ms es ds n) t
      = ((List.range n).map (fun i => Perf.mk (ms i) (es i) (ds i) st0.clock)).drop
          (n - 100) := by
  induction n with
  | zero => simpa [successStream] using h0
  | succ n ih =>
    have hclock := successStream_clock st0 t ms es ds n
    have hstep := histAt_record_success (successStream st0 t ms es ds n) t
      (ms n) (es n) (ds n)
    rw [hclock, ih] at hstep
    rw [successStream_succ, hstep]
    have hOlen : ((List.range n).map
        (fun i => Perf.mk (ms i) (es i) (ds i) st0.clock)).length = n := by
      rw [List.length_map, List.length_range]
    have hOsucc : (List.range (n + 1)).map
          (fun i => Perf.mk (ms i) (es i) (ds i) st0.clock)
        = (List.range n).map (fun i => Perf.mk (ms i) (es i) (ds i) st0.clock)
          ++ [Perf.mk (ms n) (es n) (ds n) st0.clock] := by
      rw [List.range_succ, List.map_append]
      rfl
    by_cases hn : n < 100
    · have hsub : n - 100 = 0 := by omega
      have hsub1 : n + 1 - 100 = 0 := by omega
      rw [hsub, hsub1, List.drop_zero, List.drop_zero, hOsucc]
      have hlen : (((List.range n).map
          (fun i => Perf.mk (ms i) (es i) (ds i) st0.clock))
            ++ [Perf.mk (ms n) (es n) (ds n) st0.clock]).length = n + 1 := by
        rw [List.length_append, hOlen]
        rfl
      rw [if_neg]
      rw [hlen]
      omega
    · -- n ≥ 100: the appended history exceeds 100 and is truncated
      push_neg at hn
      have hdlen : (((List.range n).map
          (fun i => Perf.mk (ms i) (es i) (ds i) st0.clock)).drop (n - 100)).length
            = 100 := by
        rw [List.length_drop, hOlen]
        omega
      have hcond : ((((List.range n).map
          (fun i => Perf.mk (ms i) (es i) (ds i) st0.clock)).drop (n - 100))
            ++ [Perf.mk (ms n) (es n) (ds n) st0.clock]).length > 100 := by
        rw [List.length_append, hdlen]
        simp
      rw [if_pos hcond]
      rw [List.length_append, hdlen]
      have h1le : (1 : Nat) ≤ 100 := by omega
      have hdrop1 : (100 + [Perf.mk (ms n) (es n) (ds n) st0.clock].length) - 100 = 1 := by
        simp
      rw [hdrop1]
      rw [List.drop_append_of_le_length (by rw [hdlen]; omega)]
      rw [List.drop_drop]
      rw [hOsucc]
      rw [List.drop_append_of_le_length (by rw [hOlen]; omega)]
      have : n - 100 + 1 = n + 1 - 100 := by omega
      rw [this]

/-- The per-tool outcome history after n recorded successes: always at most
100 entries, and exactly the most recent 100 outcomes (in order) once more
than 100 successes have been recorded. -/
theorem bounded_history_len (st0 : DebugDebugger) (t : String) (ms : Nat → String)
    (es : Nat → Nat) (ds : Nat → Int) (h0 : histAt st0 t = []) (n : Nat) :
    (histAt (successStream st0 t ms es ds n) t).length = n - (n - 100) := by
  rw [bounded_history_aux st0 t ms es ds h0 n, List.length_drop, List.length_map,
    List.length_range]

/- Claim theorems. -/

/-- Claim C1, counterexample: with "memory_archaeologist" (the tool mapped for
"memory_leak") unregistered and exactly one other healthy tool "B" registered,
`get_best_debugger_for "memory_leak"` returns the sentinel "print_statements",
not "B" — the healthy-alternative scan runs only when the mapped tool is
registered. -/
theorem c1_counterexample :
    dictMem stBOnly.debug_tools_registry "memory_archaeologist" = false
      ∧ statusAt stBOnly "B" = "healthy"
      ∧ (get_best_debugger_for stBOnly "memory_leak").2 = "print_statements"
      ∧ (get_best_debugger_for stBOnly "memory_leak").2 ≠ "B" := by
  refine ⟨by decide, by decide, by decide, by decide⟩

/-- Claim C1 (amended): whenever the tool mapped for "memory_leak"
("memory_archaeologist") is not registered, `get_best_debugger_for` returns
the sentinel "print_statements" regardless of which healthy tools are
registered. -/
theorem c1_unregistered_returns_sentinel (st : DebugDebugger)
    (h : dictMem st.debug_tools_registry "memory_archaeologist" = false) :
    (get_best_debugger_for st "memory_leak").2 = "print_statements" := by
  have hrec : dictGet problem_map "memory_leak" "print_statements"
      = "memory_archaeologist" := by decide
  simp [get_best_debugger_for, hrec, h]

/-- Claim C1 witness: the amended statement evaluated on the concrete
registry holding only the healthy tool "B". -/
theorem c1_witness :
    dictMem stBOnly.debug_tools_registry "memory_archaeologist" = false
      ∧ (get_best_debugger_for stBOnly "memory_leak").2 = "print_statements" :=
  ⟨by decide, c1_unregistered_returns_sentinel stBOnly (by decide)⟩

/-- Claim C2, counterexample: with the mapped tool "memory_archaeologist"
registered but unhealthy and no healthy tool registered,
`get_best_debugger_for "memory_leak"` returns "memory_archaeologist" itself,
not the sentinel "print_statements". -/
theorem c2_counterexample :
    statusAt stMemArch "memory_archaeologist" = "unhealthy"
      ∧ (stMemArch.debug_tools_registry.find? (fun p => p.2.status == "healthy")
          = Option.none)
      ∧ (get_best_debugger_for stMemArch "memory_leak").2 = "memory_archaeologist"
      ∧ (get_best_debugger_for stMemArch "memory_leak").2 ≠ "print_statements" := by
  refine ⟨by decide, by rfl, by decide, by decide⟩

/-- Claim C2 (amended): when the mapped tool is registered but not healthy
and no registered tool is healthy, `get_best_debugger_for` falls through the
alternative scan and returns the mapped tool identifier itself (the sentinel
is returned only when the mapped tool is not registered). -/
theorem c2_unhealthy_no_alternative_returns_mapped (st : DebugDebugger)
    (h1 : dictMem st.debug_tools_registry "memory_archaeologist" = true)
    (h2 : statusAt st "memory_archaeologist" ≠ "healthy")
    (h3 : st.debug_tools_registry.find? (fun p => p.2.status == "healthy")
        = Option.none) :
    (get_best_debugger_for st "memory_leak").2 = "memory_archaeologist" := by
  have hrec : dictGet problem_map "memory_leak" "print_statements"
      = "memory_archaeologist" := by decide
  have h2' : (dictGet st.debug_tools_registry "memory_archaeologist"
      defaultRec).status ≠ "healthy" := h2
  simp [get_best_debugger_for, hrec, h1, h2', h3]

/-- Claim C2 witness: the amended statement evaluated on the concrete
registry in which "memory_archaeologist" is unhealthy and nothing is
healthy. -/
theorem c2_witness :
    dictMem stMemArch.debug_tools_registry "memory_archaeologist" = true
      ∧ statusAt stMemArch "memory_archaeologist" ≠ "healthy"
      ∧ (stMemArch.debug_tools_registry.find? (fun p => p.2.status == "healthy")
          = Option.none)
      ∧ (get_best_debugger_for stMemArch "memory_leak").2 = "memory_archaeologist" :=
  ⟨by decide, by decide, by rfl,
   c2_unhealthy_no_alternative_returns_mapped stMemArch (by decide) (by decide) (by rfl)⟩

/-- Claim C3: a wrapped-method invocation entered while the recursion depth
already exceeds 3 (more than 3 enclosing wrapped calls in progress) returns a
null result at the trip point, never invokes the underlying original
callable, and records neither a failure nor a success for the tool. -/
theorem c3_reentrancy_guard (fuel L : Nat) (tool_name method_name : String)
    (args : List Value) (env : Env) (st : DebugDebugger)
    (h : st.recursive_depth > 3) :
    (callMethod fuel tool_name method_name (L + 1) args env st).2
        = Except.ok Value.none
      ∧ origCallsAt (callMethod fuel tool_name method_name (L + 1) args env st).1
          tool_name = origCallsAt st tool_name
      ∧ failAt (callMethod fuel tool_name method_name (L + 1) args env st).1
          tool_name = failAt st tool_name
      ∧ succAt (callMethod fuel tool_name method_name (L + 1) args env st).1
          tool_name = succAt st tool_name := by
  cases fuel with
  | zero => exact ⟨rfl, rfl, rfl, rfl⟩
  | succ fuel =>
    have hc : (bumpGhostInv st tool_name).recursive_depth > MAX_RECURSION := h
    simp only [callMethod]
    rw [if_pos hc]
    refine ⟨rfl, ?_, ?_, ?_⟩ <;> simp

/-- Claim C3 witness: the guard statement evaluated at depth 4 on a registry
with one registered tool. -/
theorem c3_witness :
    stDepth4.recursive_depth > 3
      ∧ ((callMethod 10 "A" "f" (0 + 1) [] env0 stDepth4).2 = Except.ok Value.none
        ∧ origCallsAt (callMethod 10 "A" "f" (0 + 1) [] env0 stDepth4).1 "A"
            = origCallsAt stDepth4 "A"
        ∧ failAt (callMethod 10 "A" "f" (0 + 1) [] env0 stDepth4).1 "A"
            = failAt stDepth4 "A"
        ∧ succAt (callMethod 10 "A" "f" (0 + 1) [] env0 stDepth4).1 "A"
            = succAt stDepth4 "A") :=
  ⟨by decide, c3_reentrancy_guard 10 0 "A" "f" [] env0 stDepth4 (by decide)⟩

/-- Claim C4: tool "A" whose method raises a timeout-flavored error on its
first call and succeeds on its second; one external invocation of the wrapped
f(5) retries internally and returns the second call's result (6 = 5+1), with
the failure counter going from 0 to 1 and the success counter from 0 to 1. -/
theorem c4_timeout_retry_scenario :
    succAt stTimeoutOk "A" = 0 ∧ failAt stTimeoutOk "A" = 0
      ∧ origTimeoutThenOk 1 [Value.int 5] = Except.ok (Value.int 6)
      ∧ runTimeoutOk.2 = Except.ok (Value.int 6)
      ∧ succAt runTimeoutOk.1 "A" = 1 ∧ failAt runTimeoutOk.1 "A" = 1 := by
  refine ⟨by decide, by decide, by rfl, by rfl, by decide, by decide⟩

/-- Claim C5: an invocation of a wrapped method (at least one wrapper layer)
always returns an `Except.ok` value — the wrapper never re-raises, whatever
the original method or the healing attempts do. -/
theorem c5_wrapper_never_raises (fuel L : Nat) (tool_name method_name : String)
    (args : List Value) (env : Env) (st : DebugDebugger) :
    ∃ v, (callMethod fuel tool_name method_name (L + 1) args env st).2
      = Except.ok v := by
  cases fuel with
  | zero => exact ⟨Value.none, rfl⟩
  | succ fuel =>
    simp only [callMethod]
    split
    · exact ⟨Value.none, rfl⟩
    · cases hf : callMethod fuel tool_name method_name L args env
          (incDepth (bumpGhostInv st tool_name)) with
      | mk st2 res =>
        cases res with
        | ok r => exact ⟨r, rfl⟩
        | error e =>
          dsimp only
          split
          · exact ⟨_, rfl⟩
          · exact ⟨Value.none, rfl⟩

/-- Claim C6, counterexample: a tool whose method always times out; one
external invocation cascades through healing retries until the reentrancy
guard trips, producing 5 wrapper entries (invocations) of which 1 is aborted,
while successes+failures is only 4 — so counters do not equal the invocation
count when guard-aborted invocations are included. -/
theorem c6_counterexample :
    succAt runAlwaysTimeout "A" + failAt runAlwaysTimeout "A" = 4
      ∧ invAt runAlwaysTimeout "A" = 5
      ∧ abortAt runAlwaysTimeout "A" = 1
      ∧ succAt runAlwaysTimeout "A" + failAt runAlwaysTimeout "A"
          ≠ invAt runAlwaysTimeout "A" := by
  refine ⟨by decide, by decide, by decide, by decide⟩

/-- Claim C6 (amended): for every tool and any sequence of operations,
successes+failures equals the number of wrapper entries minus those aborted
by the reentrancy guard (aborted entries are recorded in neither counter;
internal healing retries are separate entries and are recorded). -/
theorem c6_conservation (ops : List Op) (st : DebugDebugger) (t : String)
    (h : succAt st t + failAt st t + abortAt st t = invAt st t) :
    succAt (applyOps st ops) t + failAt (applyOps st ops) t
        + abortAt (applyOps st ops) t = invAt (applyOps st ops) t := by
  have hc := applyOps_conserves ops st t
  omega

/-- Claim C6 witness: the conservation statement evaluated on the
always-timeout tool across one external call. -/
theorem c6_witness :
    (succAt stAlwaysTimeout "A" + failAt stAlwaysTimeout "A"
        + abortAt stAlwaysTimeout "A" = invAt stAlwaysTimeout "A")
      ∧ (succAt (applyOps stAlwaysTimeout [Op.call 10 "A" "f" [] env0]) "A"
          + failAt (applyOps stAlwaysTimeout [Op.call 10 "A" "f" [] env0]) "A"
          + abortAt (applyOps stAlwaysTimeout [Op.call 10 "A" "f" [] env0]) "A"
          = invAt (applyOps stAlwaysTimeout [Op.call 10 "A" "f" [] env0]) "A") :=
  ⟨by decide,
   c6_conservation [Op.call 10 "A" "f" [] env0] stAlwaysTimeout "A" (by decide)⟩

/-- Claim C7, counterexample: a tool driven unhealthy by one failing call is
relabeled "unresponsive" by a later `health_check` whose reading of the clock
is more than 300 seconds past the tool's heartbeat — so the status does not
remain "unhealthy" under subsequent registry operations. -/
theorem c7_counterexample :
    statusAt runBoom "A" = "unhealthy"
      ∧ statusAt (health_check 400 runBoom).1 "A" = "unresponsive"
      ∧ statusAt (health_check 400 runBoom).1 "A" ≠ "unhealthy" := by
  refine ⟨by decide, by decide, by decide⟩

/-- Claim C7 (amended): once the failure rate exceeds 0.3 the failure
recording flips the status to "unhealthy", and no subsequent operation
(further calls, successes, or health_check) ever returns the status to
"healthy" until the tool is externally re-registered; health_check may
however relabel a stale tool "unresponsive". -/
theorem c7_no_auto_recovery :
    (∀ (st : DebugDebugger) (t0 mn exc : String),
        10 * (failAt st t0 + 1)
            > 3 * max (succAt st t0 + (failAt st t0 + 1)) 1 →
        statusAt (record_failure st t0 mn exc) t0 = "unhealthy")
      ∧ ∀ (ops : List Op) (st : DebugDebugger) (t : String),
          statusAt st t ≠ "healthy" → statusAt (applyOps st ops) t ≠ "healthy" := by
  constructor
  · intro st t0 mn exc h
    have h' : 10 * ((dictGet st.debug_tools_registry t0 defaultRec).failures + 1)
        > 3 * max ((dictGet st.debug_tools_registry t0 defaultRec).successes
            + ((dictGet st.debug_tools_registry t0 defaultRec).failures + 1)) 1 := h
    simp only [statusAt, record_failure]
    split
    · next hcond => simp [dictGet_dictSet]
    · next hcond => exact absurd h' (by simpa using hcond)
  · intro ops st t h
    exact applyOps_status ops st t h

/-- Claim C7 witness: both parts of the amended statement evaluated on
concrete registries (a fresh tool "A" receiving one failure; the unhealthy
tool surviving a stale health_check without recovering to healthy). -/
theorem c7_witness :
    (10 * (failAt stBoom "A" + 1)
          > 3 * max (succAt stBoom "A" + (failAt stBoom "A" + 1)) 1
        ∧ statusAt (record_failure stBoom "A" "f" "boom") "A" = "unhealthy")
      ∧ (statusAt runBoom "A" ≠ "healthy"
        ∧ statusAt (applyOps runBoom [Op.check 400]) "A" ≠ "healthy") :=
  ⟨⟨by decide, c7_no_auto_recovery.1 stBoom "A" "f" "boom" (by decide)⟩,
   ⟨by decide, c7_no_auto_recovery.2 [Op.check 400] runBoom "A" (by decide)⟩⟩

/-- Claim C8: starting from an empty history, after n successful calls
recorded for a tool the per-tool outcome history holds at most 100 entries,
and is exactly the suffix of the n outcomes beyond the first n-100 — i.e.
the most recent 100 outcomes in order once n exceeds 100 (oldest evicted
first), and all n outcomes in order while n is at most 100. -/
theorem c8_bounded_history (st0 : DebugDebugger) (t : String) (ms : Nat → String)
    (es : Nat → Nat) (ds : Nat → Int) (n : Nat) (h0 : histAt st0 t = []) :
    (histAt (successStream st0 t ms es ds n) t).length ≤ 100
      ∧ histAt (successStream st0 t ms es ds n) t
          = ((List.range n).map
              (fun i => Perf.mk (ms i) (es i) (ds i) st0.clock)).drop (n - 100) := by
  constructor
  · rw [bounded_history_len st0 t ms es ds h0 n]
    omega
  · exact bounded_history_aux st0 t ms es ds h0 n

/-- Claim C8 witness: the bounded-history statement evaluated for 2 recorded
successes on a fresh registry. -/
theorem c8_witness :
    histAt initDD "A" = []
      ∧ ((histAt (successStream initDD "A" (fun _ => "f") (fun i => i)
            (fun _ => 0) 2) "A").length ≤ 100
        ∧ histAt (successStream initDD "A" (fun _ => "f") (fun i => i)
              (fun _ => 0) 2) "A"
            = ((List.range 2).map
                (fun i => Perf.mk "f" i 0 initDD.clock)).drop (2 - 100)) :=
  ⟨by decide,
   c8_bounded_history initDD "A" (fun _ => "f") (fun i => i) (fun _ => 0) 2 (by decide)⟩

/-- Claim C9: re-registering tool "A" with the same already-instrumented
instance wraps the method slot a second time (2 layers), so a single
successful external invocation increments the (freshly reset) success counter
by 2 — one per wrapper layer — rather than by 1. -/
theorem c9_double_wrap_double_count :
    layersAt stRewrapped "A" = 2
      ∧ succAt stRewrapped "A" = 0
      ∧ runRewrapped.2 = Except.ok (Value.int 7)
      ∧ succAt runRewrapped.1 "A" = 2
      ∧ failAt runRewrapped.1 "A" = 0 := by
  refine ⟨by decide, by decide, by rfl, by decide, by decide⟩

/-- Claim C10: tool "A" whose method times out once and then legitimately
returns None; the healing retry succeeds (success counter reaches 1) yet its
None return is indistinguishable from a failed healing attempt, so the
wrapper writes a forensics record and returns the fallback null result. -/
theorem c10_heal_none_treated_as_failure :
    runTimeoutNone.2 = Except.ok Value.none
      ∧ succAt runTimeoutNone.1 "A" = 1
      ∧ failAt runTimeoutNone.1 "A" = 1
      ∧ stTimeoutNone.forensics.length = 0
      ∧ runTimeoutNone.1.forensics.length = 1 := by
  refine ⟨by rfl, by decide, by decide, by decide, by decide⟩

end Debugger
